import Mathlib

/-!
Verification of the kern-convertor repository: a shallow embedding of
the glyph-class resolution, kerning-pair extraction and group
classification logic of kern-convertor.py and kern-groups.py, together
with theorems settling the specification's claims about them.

Machine strings are modelled as Lean strings; the Python string
operations used by the code (upper, lower, startswith, substring
containment, whitespace split, strip, lstrip) are embedded as
character-list functions with Python's ASCII semantics.  Python dicts
are embedded as association lists with in-place overwrite (matching
Python 3.7+ insertion-order semantics).  File-system access and the
external feature-file parser are parameters of the two entry points:
a record of functions giving, per path, whether the file exists and
what the external library returns for it.  Logging calls are modelled
as an explicit list of emitted messages.
-/

/-! ## Python string primitives -/

/-- Python str.upper for ASCII text: character-wise uppercasing. -/
def pyUpper (s : String) : String := String.mk (s.data.map Char.toUpper)

/-- Python str.lower for ASCII text: character-wise lowercasing. -/
def pyLower (s : String) : String := String.mk (s.data.map Char.toLower)

/-- Python s.startswith(pat). -/
def pyStartsWith (s pat : String) : Bool := List.isPrefixOf pat.data s.data

/-- Auxiliary for substring containment: does pat occur in s? -/
def listContains (s pat : List Char) : Bool :=
  match s with
  | [] => List.isPrefixOf pat []
  | _ :: rest => List.isPrefixOf pat s || listContains rest pat

/-- Python membership test pat in s on strings: substring containment. -/
def substrIn (pat s : String) : Bool := listContains s.data pat.data

/-- Auxiliary for whitespace splitting: accumulates the current field
(reversed) and cuts at every whitespace character. -/
def splitWsAux (cur : List Char) : List Char → List String
  | [] => [String.mk cur.reverse]
  | c :: rest =>
    if c.isWhitespace then String.mk cur.reverse :: splitWsAux [] rest
    else splitWsAux (c :: cur) rest

/-- Split a string at every whitespace character, keeping empty fields. -/
def pySplitWs (s : String) : List String := splitWsAux [] s.data

/-- Python s.split() with no argument: whitespace-delimited tokens with
empty fields dropped. -/
def pySplit (s : String) : List String := (pySplitWs s).filter (fun g => g ≠ "")

/-- Python s.strip(): remove leading and trailing whitespace. -/
def pyStrip (s : String) : String :=
  String.mk (((s.data.dropWhile Char.isWhitespace).reverse.dropWhile Char.isWhitespace).reverse)

/-- Python s.lstrip of a backslash: remove all leading backslashes. -/
def pyLStripBackslash (s : String) : String :=
  String.mk (s.data.dropWhile (fun c => c = '\\'))

/-! ## Python dicts as association lists -/

/-- Python d.get(k): first binding of k, if any.  The lists built below
keep at most one binding per key, matching dict semantics. -/
def dget {α : Type} (d : List (String × α)) (k : String) : Option α :=
  match d with
  | [] => none
  | (k1, v1) :: rest => if k1 = k then some v1 else dget rest k

/-- Python d[k] = v: overwrite in place if the key is present, else
append at the end (Python 3.7+ insertion order). -/
def dset {α : Type} (d : List (String × α)) (k : String) (v : α) : List (String × α) :=
  match d with
  | [] => [(k, v)]
  | (k1, v1) :: rest => if k1 = k then (k, v) :: rest else (k1, v1) :: dset rest k v

/-! ## Log messages

Each constructor stands for one of the logging/print calls of the two
scripts that the claims talk about. -/

inductive LogMsg where
  /-- kern-convertor.py line 102 / kern-groups.py line 16: input file missing. -/
  | inputNotFound : LogMsg
  /-- kern-convertor.py line 133: the external parser raised. -/
  | parseFailed : LogMsg
  /-- kern-convertor.py line 43: unexpected group structure warning. -/
  | unexpectedGroup : LogMsg
  /-- kern-convertor.py line 64: unexpected glyph class structure warning. -/
  | unexpectedClassStructure : LogMsg
  /-- kern-convertor.py line 67: GlyphClass object without a glyphs attribute. -/
  | noGlyphsAttr : LogMsg
  /-- kern-convertor.py line 81: nested class not yet defined warning. -/
  | nestedUndefined (name : String) : LogMsg
  /-- kern-convertor.py line 90: unknown item type in a glyph class. -/
  | unknownItem : LogMsg
  /-- kern-convertor.py line 176: PairPosStatement without glyph groups. -/
  | missingGroups : LogMsg
  /-- kern-convertor.py lines 191 and 203: class used in kerning but not defined. -/
  | classUndefined (name : String) : LogMsg
  /-- kern-convertor.py line 230: no kerning data extracted. -/
  | noKerningData : LogMsg
  /-- kern-groups.py line 70: no kerning groups were extracted. -/
  | noGroups : LogMsg
deriving DecidableEq, Repr

/-! ## The feature-file AST, as the code observes it

The AST is produced by the external fontTools.feaLib parser; the code
only inspects it through isinstance checks, hasattr probes and asFea
calls.  Each constructor below encodes one of the node shapes those
probes distinguish, carrying exactly the data the code reads from it. -/

/-- A member of a glyph class definition, as dispatched by the
isinstance chain of extract_glyphs_from_glyphclass (lines 70-90):
a GlyphName node (carrying its asFea string), a nested GlyphClass node
(carrying its asFea string, used as the lookup key), a plain Python
string, some other node exposing asFea, or a node with none of these. -/
inductive ClassItem where
  | glyphName (asFea : String) : ClassItem
  | glyphClass (asFea : String) : ClassItem
  | strItem (s : String) : ClassItem
  | otherFea (asFea : String) : ClassItem
  | unknown : ClassItem
deriving DecidableEq, Repr

/-- The shape of a GlyphClassDefinition's glyphs attribute, as probed
by lines 54-65: an object that itself has a glyphs attribute holding
the items, a directly iterable object of items, or neither. -/
inductive GlyphsHolder where
  | nested (items : List ClassItem) : GlyphsHolder
  | iterable (items : List ClassItem) : GlyphsHolder
  | unknownShape : GlyphsHolder
deriving DecidableEq, Repr

/-- A GlyphClassDefinition statement: its name attribute and its
glyphs attribute (none when the attribute is absent, line 66). -/
structure GlyphClassDefn where
  name : String
  glyphsAttr : Option GlyphsHolder
deriving DecidableEq, Repr

/-- A glyph-group operand of a pair positioning statement, as
dispatched by lines 187 and 199 (is_class probe) and by the hasattr
chain of extract_glyph_names_from_group (lines 32-43): a named class
reference (is_class truthy; carries its asFea string, the key looked
up in the class dict), a node with as_list, a node with glyphs, a
GlyphName node, another iterable, a node with only asFea, or an
unexpected structure. -/
inductive GlyphGroup where
  | classRef (asFea : String) : GlyphGroup
  | asListG (glyphFeas : List String) : GlyphGroup
  | glyphsG (glyphFeas : List String) : GlyphGroup
  | single (asFea : String) : GlyphGroup
  | iterable (glyphFeas : List String) : GlyphGroup
  | feaOnly (asFea : String) : GlyphGroup
  | unexpected : GlyphGroup
deriving DecidableEq, Repr

/-- A fontTools ValueRecord as read by lines 180-183: only its
xAdvance field matters, None modelled as none. -/
structure ValueRecord where
  xAdvance : Option Int
deriving DecidableEq, Repr

/-- A PairPosStatement, carrying the attributes probed by lines
172-183: the two historical naming variants for each glyph-group
operand (glyphs1/firstGlyphs and glyphs2/secondGlyphs, none when the
attribute is absent or None) and the two value-record variants. -/
structure PairPos where
  glyphs1 : Option GlyphGroup
  firstGlyphs : Option GlyphGroup
  glyphs2 : Option GlyphGroup
  secondGlyphs : Option GlyphGroup
  valuerecord1 : Option ValueRecord
  value1 : Option ValueRecord
deriving DecidableEq, Repr

/-- A statement inside a lookup block, as dispatched by lines 169-227:
a PairPosStatement, a mark positioning statement (MarkBasePos or
MarkMark, skipped silently), or any other statement (skipped). -/
inductive LookupStatement where
  | pairPos (p : PairPos) : LookupStatement
  | markPos : LookupStatement
  | otherStmt : LookupStatement
deriving DecidableEq, Repr

/-- A top-level statement of the parsed feature file, as dispatched by
lines 140 and 162: a glyph class definition, a lookup block with its
name and body, or anything else. -/
inductive TopStatement where
  | glyphClassDef (defn : GlyphClassDefn) : TopStatement
  | lookupBlock (name : String) (stmts : List LookupStatement) : TopStatement
  | otherTop : TopStatement
deriving DecidableEq, Repr

/-- The resolved-class mapping glyph_classes of line 137:
class name to flat glyph list. -/
abbrev ClassDict : Type := List (String × List String)

/-- The kerning table kerning_data of line 151: left glyph to
(right glyph to advance value), both levels insertion-ordered dicts. -/
abbrev KernData : Type := List (String × List (String × Int))

instance : DecidableEq (List (String × KernData)) := fun _ _ =>
  inferInstance

instance : DecidableEq (List (String × List (String × List String))) := fun _ _ =>
  inferInstance

/-! ## kern-convertor.py: glyph extraction and class resolution -/

/-- extract_glyph_names_from_group (kern-convertor.py lines 26-45):
flatten a glyph-group node by its hasattr chain.  The classRef shape
has neither as_list nor glyphs and is not a GlyphName, so it falls to
the asFea branch; list-like shapes yield their members' asFea strings;
an unexpected structure yields nothing plus a warning. -/
def extract_glyph_names_from_group : GlyphGroup → List String × List LogMsg
  | GlyphGroup.classRef s => ([s], [])
  | GlyphGroup.asListG gs => (gs, [])
  | GlyphGroup.glyphsG gs => (gs, [])
  | GlyphGroup.single s => ([s], [])
  | GlyphGroup.iterable gs => (gs, [])
  | GlyphGroup.feaOnly s => ([s], [])
  | GlyphGroup.unexpected => ([], [LogMsg.unexpectedGroup])

/-- The member loop of extract_glyphs_from_glyphclass
(kern-convertor.py lines 70-90): a GlyphName appends its asFea string;
a nested GlyphClass is looked up in the resolved-class dict and its
flat list spliced in, or, if absent, its raw asFea token is appended
with a warning; a plain string and any other asFea-bearing node append
their string; anything else is skipped with a warning. -/
def classItemsLoop (dict : ClassDict) : List ClassItem → List String × List LogMsg
  | [] => ([], [])
  | item :: rest =>
    let acc := classItemsLoop dict rest
    match item with
    | ClassItem.glyphName s => (s :: acc.1, acc.2)
    | ClassItem.glyphClass refFea =>
      match dget dict refFea with
      | some flat => (flat ++ acc.1, acc.2)
      | none => (refFea :: acc.1, LogMsg.nestedUndefined refFea :: acc.2)
    | ClassItem.strItem s => (s :: acc.1, acc.2)
    | ClassItem.otherFea s => (s :: acc.1, acc.2)
    | ClassItem.unknown => (acc.1, LogMsg.unknownItem :: acc.2)

/-- extract_glyphs_from_glyphclass (kern-convertor.py lines 47-92):
probe the glyphs attribute shape (lines 54-68), then run the member
loop over the items. -/
def extract_glyphs_from_glyphclass (glyph_class : GlyphClassDefn) (dict : ClassDict) :
    List String × List LogMsg :=
  match glyph_class.glyphsAttr with
  | none => ([], [LogMsg.noGlyphsAttr])
  | some (GlyphsHolder.nested items) => classItemsLoop dict items
  | some (GlyphsHolder.iterable items) => classItemsLoop dict items
  | some GlyphsHolder.unknownShape => ([], [LogMsg.unexpectedClassStructure])

/-- The class-collection loop of convert_kerning_fea_to_plist
(kern-convertor.py lines 137-147): fold over top-level statements,
resolving each GlyphClassDefinition against the classes collected so
far and storing the result under the statement's name. -/
def collectClasses (stmts : List TopStatement) : ClassDict × List LogMsg :=
  stmts.foldl
    (fun acc st =>
      match st with
      | TopStatement.glyphClassDef d =>
        let r := extract_glyphs_from_glyphclass d acc.1
        (dset acc.1 d.name r.1, acc.2 ++ r.2)
      | _ => acc)
    ([], [])

/-! ## kern-convertor.py: kerning-pair extraction -/

/-- The value extraction of lines 179-183: valuerecord1's xAdvance if
the attribute is present and set, else value1's xAdvance if present
and set, else 0. -/
def pairValue (p : PairPos) : Int :=
  match p.valuerecord1 with
  | some vr =>
    match vr.xAdvance with
    | some x => x
    | none =>
      match p.value1 with
      | some vr2 => vr2.xAdvance.getD 0
      | none => 0
  | none =>
    match p.value1 with
    | some vr2 => vr2.xAdvance.getD 0
    | none => 0

/-- The per-operand resolution of lines 185-207: a named class
reference (is_class truthy) is looked up in the class dict with
default []; an empty result means skip the whole statement with a
warning (none).  Any other shape is flattened by
extract_glyph_names_from_group and never skips. -/
def resolveGroup (classes : ClassDict) (g : GlyphGroup) :
    Option (List String) × List LogMsg :=
  match g with
  | GlyphGroup.classRef cname =>
    let r := (dget classes cname).getD []
    if r = [] then (none, [LogMsg.classUndefined cname])
    else (some r, [])
  | g => let r := extract_glyph_names_from_group g
         (some r.1, r.2)

/-- The inner pair write of lines 212-214: create the left glyph's
inner dict if absent, then overwrite the right glyph's value. -/
def addPair (kd : KernData) (g1 g2 : String) (v : Int) : KernData :=
  match dget kd g1 with
  | none => dset kd g1 [(g2, v)]
  | some inner => dset kd g1 (dset inner g2 v)

/-- The Cartesian-product emission of lines 210-214: all pairs of the
two resolved glyph lists, each written with the statement's value. -/
def addPairs (kd : KernData) (g1s g2s : List String) (v : Int) : KernData :=
  g1s.foldl (fun kd1 g1 => g2s.foldl (fun kd2 g2 => addPair kd2 g1 g2 v) kd1) kd

/-- Processing of one PairPosStatement (lines 170-215): read both
operands through the two attribute variants (getattr-or chains of
lines 172-173), bail with a warning when either is missing, resolve
each side (skipping the statement when a named class is undefined or
empty), then emit the Cartesian product. -/
def processPairPos (classes : ClassDict) (kd : KernData) (p : PairPos) :
    KernData × List LogMsg :=
  match p.glyphs1.or p.firstGlyphs, p.glyphs2.or p.secondGlyphs with
  | none, _ => (kd, [LogMsg.missingGroups])
  | some _, none => (kd, [LogMsg.missingGroups])
  | some fg, some sg =>
    let value := pairValue p
    match resolveGroup classes fg with
    | (none, w1) => (kd, w1)
    | (some rfg, w1) =>
      match resolveGroup classes sg with
      | (none, w2) => (kd, w1 ++ w2)
      | (some rsg, w2) => (addPairs kd rfg rsg value, w1 ++ w2)

/-- The statement loop of lines 168-227 inside one selected lookup:
PairPosStatements are processed, mark positioning and any other
statement types are skipped. -/
def processStmts (classes : ClassDict) (kd : KernData) :
    List LookupStatement → KernData × List LogMsg
  | [] => (kd, [])
  | LookupStatement.pairPos p :: rest =>
    let r1 := processPairPos classes kd p
    let r2 := processStmts classes r1.1 rest
    (r2.1, r1.2 ++ r2.2)
  | LookupStatement.markPos :: rest => processStmts classes kd rest
  | LookupStatement.otherStmt :: rest => processStmts classes kd rest

/-- The lookup-selection loop of lines 155-227: fold over top-level
statements, processing the body of every LookupBlock whose lowercased
name starts with kern, starting from an empty table. -/
def extractKerning (classes : ClassDict) (stmts : List TopStatement) :
    KernData × List LogMsg :=
  stmts.foldl
    (fun acc st =>
      match st with
      | TopStatement.lookupBlock name lstmts =>
        if pyStartsWith (pyLower name) "kern" then
          let r := processStmts classes acc.1 lstmts
          (r.1, acc.2 ++ r.2)
        else acc
      | _ => acc)
    ([], [])

/-! ## The outside world

The two scripts touch the world through os.path.exists, the external
fontTools parser, and a regex findall over the raw file text.  All are
modelled as per-path functions supplied by the caller. -/

/-- What the environment answers for each path: whether the file
exists (os.path.exists); what the structured feature-file parse of
kern-convertor.py returns (none when the parser raises, line 132);
what the parser state glyphClassDefs of kern-groups.py line 38 holds
(none when the attribute is absent or the parser raised); and the
findall matches of the class regex of kern-groups.py line 115 over the
file's text, as (class name, member text) capture pairs. -/
structure FS where
  pathExists : String → Bool
  parseFile : String → Option (List TopStatement)
  glyphClassDefs : String → Option (List (String × List (String × Option String)))
  regexMatches : String → List (String × String)

/-- convert_kerning_fea_to_plist (kern-convertor.py lines 94-241),
returning the list of (path, table) writes performed and the log.
A missing input file or a parse failure writes nothing; otherwise
classes are collected, kerning extracted, an empty result logged as a
warning, and the table (empty or not) written to the output path. -/
def convert_kerning_fea_to_plist (fs : FS) (fea_file_path output_plist_path : String) :
    List (String × KernData) × List LogMsg :=
  if fs.pathExists fea_file_path = false then ([], [LogMsg.inputNotFound])
  else
    match fs.parseFile fea_file_path with
    | none => ([], [LogMsg.parseFailed])
    | some stmts =>
      let c := collectClasses stmts
      let k := extractKerning c.1 stmts
      let w3 := if k.1 = [] then [LogMsg.noKerningData] else []
      ([(output_plist_path, k.1)], c.2 ++ k.2 ++ w3)

/-! ## kern-groups.py -/

/-- The fixed pattern lists of kern-groups.py lines 89-91. -/
def left_patterns : List String := ["LEFT", "LHS", "L_", "FIRST", "1ST", "_L", "L."]

/-- The right-side pattern list of kern-groups.py line 91. -/
def right_patterns : List String := ["RIGHT", "RHS", "R_", "SECOND", "2ND", "_R", "R."]

/-- determine_group_type (kern-groups.py lines 84-104): uppercase the
name; the loop over right patterns returns kern2 as soon as a pattern
occurs in the name or the name starts with R (the startswith test is
re-evaluated in every iteration, so it alone suffices); the loop over
left patterns likewise returns kern1 for a pattern or a leading L;
otherwise kern1 by default. -/
def determine_group_type (class_name : String) : String :=
  let u := pyUpper class_name
  if right_patterns.any (fun pat => substrIn pat u || pyStartsWith u "R") then
    "public.kern2."
  else if left_patterns.any (fun pat => substrIn pat u || pyStartsWith u "L") then
    "public.kern1."
  else
    "public.kern1."

/-- The structured-path group construction of kern-groups.py lines
42-57: for each parsed class definition, strip a leading at sign from
the name, clean each member (g.name if the node has one, else str(g),
in both cases with leading backslashes stripped - the member is
modelled as (string form, optional name attribute)), classify the
side, and store under the full UFO group name. -/
def groupsFromDefs (defs : List (String × List (String × Option String))) :
    List (String × List String) :=
  defs.foldl
    (fun acc d =>
      let clean := if pyStartsWith d.1 "@" then (String.mk d.1.data.tail) else d.1
      let glyph_list := d.2.map
        (fun g => match g.2 with
          | some n => pyLStripBackslash n
          | none => pyLStripBackslash g.1)
      dset acc (determine_group_type clean ++ clean) glyph_list)
    []

/-- parse_groups_with_regex (kern-groups.py lines 106-129), taking the
findall capture pairs of the class regex: split each member text on
whitespace, strip and drop empty tokens, and add the group only when
at least one glyph remains. -/
def parse_groups_with_regex (found : List (String × String)) :
    List (String × List String) :=
  found.foldl
    (fun acc m =>
      let glyph_list := ((pySplit m.2).map pyStrip).filter (fun g => g ≠ "")
      if glyph_list = [] then acc
      else dset acc (determine_group_type m.1 ++ m.1) glyph_list)
    []

/-- The extraction part of extract_and_write_kerning_groups
(kern-groups.py lines 21-67): use the structured parser's class
definitions when present and nonempty; otherwise (absent, empty, or
the parser raised) fall back to the regex scan. -/
def groupsExtractedData (fs : FS) (fea_file_path : String) : List (String × List String) :=
  match fs.glyphClassDefs fea_file_path with
  | some defs =>
    if defs = [] then parse_groups_with_regex (fs.regexMatches fea_file_path)
    else groupsFromDefs defs
  | none => parse_groups_with_regex (fs.regexMatches fea_file_path)

/-- extract_and_write_kerning_groups (kern-groups.py lines 6-82),
returning the writes performed and the log: nothing is written when
the input file is missing or when no groups were extracted; otherwise
the extracted mapping is written to the output path. -/
def extract_and_write_kerning_groups (fs : FS) (fea_file_path output_plist_path : String) :
    List (String × List (String × List String)) × List LogMsg :=
  if fs.pathExists fea_file_path = false then ([], [LogMsg.inputNotFound])
  else
    let extracted := groupsExtractedData fs fea_file_path
    if extracted = [] then ([], [LogMsg.noGroups])
    else ([(output_plist_path, extracted)], [])

/-! ## Dictionary lemmas -/

/-- Setting a key and reading it back yields the written value. -/
theorem dget_dset_self {α : Type} (d : List (String × α)) (k : String) (v : α) :
    dget (dset d k v) k = some v := by
  induction d with
  | nil => simp [dget, dset]
  | cons kv rest ih =>
    by_cases h : kv.1 = k
    · simp [dget, dset, h]
    · simp [dget, dset, h, ih]

/-- Every binding of an updated dict is the new binding or an old one. -/
theorem mem_dset {α : Type} {d : List (String × α)} {k : String} {v : α}
    {p : String × α} (h : p ∈ dset d k v) : p = (k, v) ∨ p ∈ d := by
  induction d with
  | nil => simpa [dset] using h
  | cons kv rest ih =>
    by_cases hk : kv.1 = k
    · rw [dset] at h
      simp only [hk, if_true] at h
      rcases List.mem_cons.mp h with h1 | h1
      · exact Or.inl h1
      · exact Or.inr (List.mem_cons_of_mem _ h1)
    · rw [dset] at h
      simp only [hk, if_false] at h
      rcases List.mem_cons.mp h with h1 | h1
      · exact Or.inr (by simp [h1])
      · rcases ih h1 with h2 | h2
        · exact Or.inl h2
        · exact Or.inr (List.mem_cons_of_mem _ h2)

/-- A successful lookup exhibits a binding of the dict. -/
theorem dget_mem {α : Type} {d : List (String × α)} {k : String} {v : α}
    (h : dget d k = some v) : (k, v) ∈ d := by
  induction d with
  | nil => simp [dget] at h
  | cons kv rest ih =>
    by_cases hk : kv.1 = k
    · rw [dget] at h
      simp only [hk, if_true, Option.some.injEq] at h
      subst h
      have : kv = (k, kv.2) := by
        cases kv
        simpa using hk
      simp [← this]
    · rw [dget] at h
      simp only [hk, if_false] at h
      exact List.mem_cons_of_mem _ (ih h)

/-- Every key of an updated dict is the written key or an old key. -/
theorem mem_keys_dset {α : Type} {d : List (String × α)} {k x : String} {v : α}
    (h : x ∈ (dset d k v).map Prod.fst) : x = k ∨ x ∈ d.map Prod.fst := by
  rcases List.mem_map.mp h with ⟨p, hp, hx⟩
  rcases mem_dset hp with h1 | h1
  · left
    rw [← hx, h1]
  · right
    exact List.mem_map.mpr ⟨p, h1, hx⟩

/-- In-place overwrite preserves distinctness of the keys. -/
theorem nodup_keys_dset {α : Type} {d : List (String × α)} (k : String) (v : α)
    (h : (d.map Prod.fst).Nodup) : ((dset d k v).map Prod.fst).Nodup := by
  induction d with
  | nil => simp [dset]
  | cons kv rest ih =>
    rw [List.map_cons, List.nodup_cons] at h
    by_cases hk : kv.1 = k
    · rw [dset]
      simp only [hk, if_true, List.map_cons, List.nodup_cons]
      exact ⟨by rw [← hk]; exact h.1, h.2⟩
    · rw [dset]
      simp only [hk, if_false, List.map_cons, List.nodup_cons]
      refine ⟨fun hmem => ?_, ih h.2⟩
      rcases mem_keys_dset hmem with h1 | h1
      · exact hk h1
      · exact h.1 h1

/-! ## Well-formedness of the kerning table

The (leftGlyph, rightGlyph) uniqueness invariant of the output
mapping: outer keys are distinct and every inner dict has distinct
keys. -/

/-- The uniqueness invariant of kerning_data. -/
def kdWellFormed (kd : KernData) : Prop :=
  (kd.map Prod.fst).Nodup ∧ ∀ p ∈ kd, (p.2.map Prod.fst).Nodup

/-- A fold preserves any invariant its step preserves. -/
theorem foldl_preserve {α β : Type} (P : α → Prop) (f : α → β → α)
    (hf : ∀ a b, P a → P (f a b)) :
    ∀ (l : List β) (a : α), P a → P (l.foldl f a) := by
  intro l
  induction l with
  | nil => intro a h; simpa using h
  | cons b rest ih =>
    intro a h
    rw [List.foldl_cons]
    exact ih (f a b) (hf a b h)

/-- Writing one pair preserves the uniqueness invariant. -/
theorem addPair_wf {kd : KernData} (g1 g2 : String) (v : Int)
    (h : kdWellFormed kd) : kdWellFormed (addPair kd g1 g2 v) := by
  rw [addPair]
  cases hg : dget kd g1 with
  | none =>
    constructor
    · exact nodup_keys_dset g1 [(g2, v)] h.1
    · intro p hp
      rcases mem_dset hp with h1 | h1
      · rw [h1]
        simp
      · exact h.2 p h1
  | some inner =>
    constructor
    · exact nodup_keys_dset g1 (dset inner g2 v) h.1
    · intro p hp
      rcases mem_dset hp with h1 | h1
      · rw [h1]
        exact nodup_keys_dset g2 v (h.2 (g1, inner) (dget_mem hg))
      · exact h.2 p h1

/-- The Cartesian-product emission preserves the invariant. -/
theorem addPairs_wf {kd : KernData} (g1s g2s : List String) (v : Int)
    (h : kdWellFormed kd) : kdWellFormed (addPairs kd g1s g2s v) := by
  rw [addPairs]
  refine foldl_preserve kdWellFormed _ (fun a g1 ha => ?_) g1s kd h
  exact foldl_preserve kdWellFormed _ (fun a2 g2 ha2 => addPair_wf g1 g2 v ha2) g2s a ha

/-- Processing one pair positioning statement preserves the invariant. -/
theorem processPairPos_wf (classes : ClassDict) {kd : KernData} (p : PairPos)
    (h : kdWellFormed kd) : kdWellFormed (processPairPos classes kd p).1 := by
  rw [processPairPos]
  split
  · exact h
  · exact h
  · dsimp only
    split
    · exact h
    · split
      · exact h
      · exact addPairs_wf _ _ _ h

/-- The statement loop preserves the invariant. -/
theorem processStmts_wf (classes : ClassDict) {kd : KernData}
    (l : List LookupStatement) (h : kdWellFormed kd) :
    kdWellFormed (processStmts classes kd l).1 := by
  induction l generalizing kd with
  | nil => exact h
  | cons st rest ih =>
    cases st with
    | pairPos p => exact ih (processPairPos_wf classes p h)
    | markPos => exact ih h
    | otherStmt => exact ih h

/-- The extracted kerning table always satisfies the uniqueness
invariant: no (left, right) pair occurs twice. -/
theorem extractKerning_wf (classes : ClassDict) (stmts : List TopStatement) :
    kdWellFormed (extractKerning classes stmts).1 := by
  have h0 : kdWellFormed (([], []) : KernData × List LogMsg).1 :=
    ⟨List.nodup_nil, fun p hp => absurd hp (List.not_mem_nil p)⟩
  rw [extractKerning]
  refine foldl_preserve (fun (acc : KernData × List LogMsg) => kdWellFormed acc.1) _
    (fun a st ha => ?_) stmts ([], []) h0
  cases st with
  | glyphClassDef d => exact ha
  | lookupBlock name lstmts =>
    by_cases hname : pyStartsWith (pyLower name) "kern" = true
    · simp only [hname, if_true]
      exact processStmts_wf classes lstmts ha
    · simp only [hname, if_false]
      exact ha
  | otherTop => exact ha

/-! ## Claim theorems -/

/-- The member loop distributes over list append: glyphs and warnings
of a concatenation are the concatenations of both parts' glyphs and
warnings, in order. -/
theorem classItemsLoop_append (dict : ClassDict) (l1 l2 : List ClassItem) :
    classItemsLoop dict (l1 ++ l2)
      = ((classItemsLoop dict l1).1 ++ (classItemsLoop dict l2).1,
         (classItemsLoop dict l1).2 ++ (classItemsLoop dict l2).2) := by
  induction l1 with
  | nil => simp [classItemsLoop]
  | cons item rest ih =>
    cases item with
    | glyphName s => simp [classItemsLoop, ih]
    | glyphClass r =>
      cases hr : dget dict r with
      | none => simp [classItemsLoop, hr, ih]
      | some flat => simp [classItemsLoop, hr, ih]
    | strItem s => simp [classItemsLoop, ih]
    | otherFea s => simp [classItemsLoop, ih]
    | unknown => simp [classItemsLoop, ih]

/-- Claim C4: for a glyph-class definition whose members are all single
glyph names, the resolver returns exactly the declared member list in
declaration order (and no warning), for both shapes of the glyphs
attribute. -/
theorem c4_direct_members (names : List String) (dict : ClassDict) (n : String) :
    extract_glyphs_from_glyphclass
      (GlyphClassDefn.mk n (some (GlyphsHolder.nested (names.map ClassItem.glyphName)))) dict
      = (names, []) ∧
    extract_glyphs_from_glyphclass
      (GlyphClassDefn.mk n (some (GlyphsHolder.iterable (names.map ClassItem.glyphName)))) dict
      = (names, []) := by
  have hloop : classItemsLoop dict (names.map ClassItem.glyphName) = (names, []) := by
    induction names with
    | nil => simp [classItemsLoop]
    | cons a rest ih => simp [classItemsLoop, ih]
  exact ⟨by simp [extract_glyphs_from_glyphclass, hloop],
         by simp [extract_glyphs_from_glyphclass, hloop]⟩

/-- Claim C5: resolving a class containing a reference to another named
class splices the referenced flat list in at the reference point when
the name is in the resolved mapping, and otherwise appends the raw
class-reference token as a single placeholder element and emits a
warning, without aborting resolution of the surrounding members. -/
theorem c5_nested_reference (dict : ClassDict) (n ref : String)
    (pre post : List ClassItem) (flat : List String) :
    (dget dict ref = some flat →
     extract_glyphs_from_glyphclass
       (GlyphClassDefn.mk n
         (some (GlyphsHolder.nested (pre ++ ClassItem.glyphClass ref :: post)))) dict
       = ((classItemsLoop dict pre).1 ++ flat ++ (classItemsLoop dict post).1,
          (classItemsLoop dict pre).2 ++ (classItemsLoop dict post).2)) ∧
    (dget dict ref = none →
     extract_glyphs_from_glyphclass
       (GlyphClassDefn.mk n
         (some (GlyphsHolder.nested (pre ++ ClassItem.glyphClass ref :: post)))) dict
       = ((classItemsLoop dict pre).1 ++ ref :: (classItemsLoop dict post).1,
          (classItemsLoop dict pre).2
            ++ LogMsg.nestedUndefined ref :: (classItemsLoop dict post).2)) := by
  constructor
  · intro h
    simp [extract_glyphs_from_glyphclass, classItemsLoop_append, classItemsLoop, h]
  · intro h
    simp [extract_glyphs_from_glyphclass, classItemsLoop_append, classItemsLoop, h]

/-- Claim C5 witness: a class [a @X b] with @X resolved to [x, y]
yields [a, x, y, b] with no warning. -/
theorem c5_witness :
    dget [("@X", ["x", "y"])] "@X" = some ["x", "y"] ∧
    extract_glyphs_from_glyphclass
      (GlyphClassDefn.mk "@Base"
        (some (GlyphsHolder.nested
          [ClassItem.glyphName "a", ClassItem.glyphClass "@X", ClassItem.glyphName "b"])))
      [("@X", ["x", "y"])]
      = (["a", "x", "y", "b"], []) := by
  refine ⟨by decide, ?_⟩
  have h := (c5_nested_reference [("@X", ["x", "y"])] "@Base" "@X"
    [ClassItem.glyphName "a"] [ClassItem.glyphName "b"] ["x", "y"]).1 (by decide)
  exact h.trans (by decide)

/-- Claim C1: a pairwise positioning rule with inline classes [A B] and
[C D] and advance value v inside a lookup named kern_base makes the
converter write exactly the four-pair Cartesian product table, each
pair mapped to v. -/
theorem c1_cartesian_product (A B C D : String) (v : Int)
    (hab : A ≠ B) (hcd : C ≠ D) :
    (convert_kerning_fea_to_plist
      (FS.mk (fun _ => true)
        (fun _ => some [TopStatement.lookupBlock "kern_base"
          [LookupStatement.pairPos
            (PairPos.mk (some (GlyphGroup.glyphsG [A, B])) none
              (some (GlyphGroup.glyphsG [C, D])) none
              (some (ValueRecord.mk (some v))) none)]])
        (fun _ => none) (fun _ => []))
      "features.fea" "kerning.plist").1
    = [("kerning.plist",
        [(A, [(C, v), (D, v)]), (B, [(C, v), (D, v)])])] := by
  simp [convert_kerning_fea_to_plist, collectClasses, extractKerning, processStmts,
        processPairPos, resolveGroup, extract_glyph_names_from_group, pairValue,
        addPairs, addPair, dget, dset, Option.or, hab, hcd,
        (by decide : pyStartsWith (pyLower "kern_base") "kern" = true)]

/-- Claim C1 witness: the rule pos [A B] [C D] -75 in lookup kern_base
yields exactly (A,C), (A,D), (B,C), (B,D), all at -75. -/
theorem c1_witness :
    ("A" : String) ≠ "B" ∧ ("C" : String) ≠ "D" ∧
    (convert_kerning_fea_to_plist
      (FS.mk (fun _ => true)
        (fun _ => some [TopStatement.lookupBlock "kern_base"
          [LookupStatement.pairPos
            (PairPos.mk (some (GlyphGroup.glyphsG ["A", "B"])) none
              (some (GlyphGroup.glyphsG ["C", "D"])) none
              (some (ValueRecord.mk (some (-75)))) none)]])
        (fun _ => none) (fun _ => []))
      "features.fea" "kerning.plist").1
    = [("kerning.plist",
        [("A", [("C", -75), ("D", -75)]), ("B", [("C", -75), ("D", -75)])])] :=
  ⟨by decide, by decide,
   c1_cartesian_product "A" "B" "C" "D" (-75) (by decide) (by decide)⟩

/-- Claim C2: two pairwise rules writing different values to the same
(left, right) pair leave only the later value in the table, and the
extracted table always keeps each (left, right) pair unique (outer and
inner dict keys are distinct). -/
theorem c2_last_write_wins (g1 g2 : String) (v1 v2 : Int) (_hne : v1 ≠ v2) :
    (extractKerning []
      [TopStatement.lookupBlock "kern_pairs"
        [LookupStatement.pairPos
          (PairPos.mk (some (GlyphGroup.single g1)) none
            (some (GlyphGroup.single g2)) none
            (some (ValueRecord.mk (some v1))) none),
         LookupStatement.pairPos
          (PairPos.mk (some (GlyphGroup.single g1)) none
            (some (GlyphGroup.single g2)) none
            (some (ValueRecord.mk (some v2))) none)]]).1
      = [(g1, [(g2, v2)])] ∧
    ∀ (classes : ClassDict) (stmts : List TopStatement),
      kdWellFormed (extractKerning classes stmts).1 := by
  constructor
  · simp [extractKerning, processStmts, processPairPos, resolveGroup,
          extract_glyph_names_from_group, pairValue, addPairs, addPair,
          dget, dset, Option.or,
          (by decide : pyStartsWith (pyLower "kern_pairs") "kern" = true)]
  · exact fun classes stmts => extractKerning_wf classes stmts

/-- Claim C2 witness: A V -50 followed by A V 10 leaves only
(A, V) = 10. -/
theorem c2_witness :
    ((-50 : Int) ≠ 10) ∧
    (extractKerning []
      [TopStatement.lookupBlock "kern_pairs"
        [LookupStatement.pairPos
          (PairPos.mk (some (GlyphGroup.single "A")) none
            (some (GlyphGroup.single "V")) none
            (some (ValueRecord.mk (some (-50)))) none),
         LookupStatement.pairPos
          (PairPos.mk (some (GlyphGroup.single "A")) none
            (some (GlyphGroup.single "V")) none
            (some (ValueRecord.mk (some 10))) none)]]).1
      = [("A", [("V", 10)])] :=
  ⟨by decide, (c2_last_write_wins "A" "V" (-50) 10 (by decide)).1⟩

/-- Claim C3: a pairwise statement whose first or second operand is a
named-class reference absent from the resolved-class mapping adds no
pairs at all to the table, emits the undefined-class warning, and the
remaining statements are processed unchanged. -/
theorem c3_undefined_class_skips (classes : ClassDict) (kd : KernData)
    (cname : String) (p : PairPos) (rest : List LookupStatement)
    (hn : dget classes cname = none) :
    (∀ (sg : GlyphGroup),
     p.glyphs1.or p.firstGlyphs = some (GlyphGroup.classRef cname) →
     p.glyphs2.or p.secondGlyphs = some sg →
     processStmts classes kd (LookupStatement.pairPos p :: rest)
       = ((processStmts classes kd rest).1,
          LogMsg.classUndefined cname :: (processStmts classes kd rest).2)) ∧
    (∀ (fg : GlyphGroup) (rfg : List String) (w1 : List LogMsg),
     p.glyphs1.or p.firstGlyphs = some fg →
     p.glyphs2.or p.secondGlyphs = some (GlyphGroup.classRef cname) →
     resolveGroup classes fg = (some rfg, w1) →
     processStmts classes kd (LookupStatement.pairPos p :: rest)
       = ((processStmts classes kd rest).1,
          (w1 ++ [LogMsg.classUndefined cname]) ++ (processStmts classes kd rest).2)) := by
  constructor
  · intro sg h1 h2
    have hp : processPairPos classes kd p = (kd, [LogMsg.classUndefined cname]) := by
      simp [processPairPos, h1, h2, resolveGroup, hn]
    simp [processStmts, hp]
  · intro fg rfg w1 h1 h2 hr
    have hsg : resolveGroup classes (GlyphGroup.classRef cname)
        = (none, [LogMsg.classUndefined cname]) := by
      simp [resolveGroup, hn]
    have hp : processPairPos classes kd p = (kd, w1 ++ [LogMsg.classUndefined cname]) := by
      simp [processPairPos, h1, h2, hr, hsg]
    simp [processStmts, hp]

/-- Claim C3 witness: a statement referencing the undefined class @X
contributes no pairs and one warning, while the following A V 5
statement is still extracted. -/
theorem c3_witness :
    dget ([] : ClassDict) "@X" = none ∧
    processStmts [] []
      [LookupStatement.pairPos
        (PairPos.mk (some (GlyphGroup.classRef "@X")) none
          (some (GlyphGroup.single "V")) none none none),
       LookupStatement.pairPos
        (PairPos.mk (some (GlyphGroup.single "A")) none
          (some (GlyphGroup.single "V")) none
          (some (ValueRecord.mk (some 5))) none)]
      = ([("A", [("V", 5)])], [LogMsg.classUndefined "@X"]) := by
  refine ⟨rfl, ?_⟩
  have h := (c3_undefined_class_skips [] [] "@X"
    (PairPos.mk (some (GlyphGroup.classRef "@X")) none
      (some (GlyphGroup.single "V")) none none none)
    [LookupStatement.pairPos
      (PairPos.mk (some (GlyphGroup.single "A")) none
        (some (GlyphGroup.single "V")) none
        (some (ValueRecord.mk (some 5))) none)]
    rfl).1 (GlyphGroup.single "V") rfl rfl
  rw [h]
  decide

/-- Claim C9: a named-class operand that is defined but resolved to an
empty glyph list is treated exactly like an undefined one: the
statement is skipped whole with the same undefined-class warning, and
processing continues with the remaining statements. -/
theorem c9_empty_class_skips (classes classes2 : ClassDict) (kd : KernData)
    (cname : String) (p : PairPos) (sg : GlyphGroup) (rest : List LookupStatement)
    (h1 : p.glyphs1.or p.firstGlyphs = some (GlyphGroup.classRef cname))
    (h2 : p.glyphs2.or p.secondGlyphs = some sg)
    (hempty : dget classes cname = some [])
    (hundef : dget classes2 cname = none) :
    processPairPos classes kd p = (kd, [LogMsg.classUndefined cname]) ∧
    processPairPos classes2 kd p = (kd, [LogMsg.classUndefined cname]) ∧
    processStmts classes kd (LookupStatement.pairPos p :: rest)
      = ((processStmts classes kd rest).1,
         LogMsg.classUndefined cname :: (processStmts classes kd rest).2) := by
  have hp : processPairPos classes kd p = (kd, [LogMsg.classUndefined cname]) := by
    simp [processPairPos, h1, h2, resolveGroup, hempty]
  have hp2 : processPairPos classes2 kd p = (kd, [LogMsg.classUndefined cname]) := by
    simp [processPairPos, h1, h2, resolveGroup, hundef]
  exact ⟨hp, hp2, by simp [processStmts, hp]⟩

/-- Claim C9 witness: the class @E defined with zero members produces
the same skip and warning as an undefined class. -/
theorem c9_witness :
    dget [("@E", ([] : List String))] "@E" = some [] ∧
    processPairPos [("@E", [])] []
      (PairPos.mk (some (GlyphGroup.classRef "@E")) none
        (some (GlyphGroup.single "V")) none none none)
      = ([], [LogMsg.classUndefined "@E"]) :=
  ⟨by decide,
   (c9_empty_class_skips [("@E", [])] [] [] "@E"
     (PairPos.mk (some (GlyphGroup.classRef "@E")) none
       (some (GlyphGroup.single "V")) none none none)
     (GlyphGroup.single "V") [] rfl rfl (by decide) rfl).1⟩

/-- Claim C6 counterexample: the name Round matches no entry of either
pattern list, yet the classifier does not assign the default
public.kern1. (it returns public.kern2. because of the startswith R
test inside the right-pattern loop), refuting the claim that a name
matching neither pattern list gets the default kern1. -/
theorem c6_counterexample :
    right_patterns.any (fun pat => substrIn pat (pyUpper "Round")) = false ∧
    left_patterns.any (fun pat => substrIn pat (pyUpper "Round")) = false ∧
    determine_group_type "Round" ≠ "public.kern1." := by
  decide

/-- Claim C6 (amended): a name whose uppercased form contains RIGHT is
classified public.kern2.; any right-pattern match wins over left
patterns; and a name matching neither pattern list, whose uppercased
form also does not start with R, gets the default public.kern1. -/
theorem c6_classifier (n : String) :
    (substrIn "RIGHT" (pyUpper n) = true →
     determine_group_type n = "public.kern2.") ∧
    (right_patterns.any (fun pat => substrIn pat (pyUpper n)) = true →
     determine_group_type n = "public.kern2.") ∧
    (right_patterns.any (fun pat => substrIn pat (pyUpper n)) = false →
     left_patterns.any (fun pat => substrIn pat (pyUpper n)) = false →
     pyStartsWith (pyUpper n) "R" = false →
     determine_group_type n = "public.kern1.") := by
  refine ⟨fun h => ?_, fun h => ?_, fun h1 _h2 h3 => ?_⟩
  · have hany : right_patterns.any
        (fun pat => substrIn pat (pyUpper n) || pyStartsWith (pyUpper n) "R") = true := by
      rw [List.any_eq_true]
      exact ⟨"RIGHT", by simp [right_patterns], by rw [h]; simp⟩
    simp [determine_group_type, hany]
  · rw [List.any_eq_true] at h
    rcases h with ⟨pat, hpat, hsub⟩
    have hany : right_patterns.any
        (fun pat => substrIn pat (pyUpper n) || pyStartsWith (pyUpper n) "R") = true := by
      rw [List.any_eq_true]
      exact ⟨pat, hpat, by rw [Bool.or_eq_true]; exact Or.inl hsub⟩
    simp [determine_group_type, hany]
  · have hany : right_patterns.any
        (fun pat => substrIn pat (pyUpper n) || pyStartsWith (pyUpper n) "R") = false := by
      rw [List.any_eq_false]
      intro pat hpat
      rw [List.any_eq_false] at h1
      simp [h1 pat hpat, h3]
    simp [determine_group_type, hany]

/-- Claim C6 witness: A_Right contains RIGHT and is classified kern2;
the markerless name open (not starting with R) falls to kern1. -/
theorem c6_witness :
    substrIn "RIGHT" (pyUpper "A_Right") = true ∧
    determine_group_type "A_Right" = "public.kern2." ∧
    determine_group_type "open" = "public.kern1." :=
  ⟨by decide, (c6_classifier "A_Right").1 (by decide),
   (c6_classifier "open").2.2 (by decide) (by decide) (by decide)⟩

/-- Claim C7: when the input feature file does not exist, both
converters write nothing, log only the file-not-found report, and
return (the embedded functions are total, so no exception escapes). -/
theorem c7_missing_input_no_write (fs1 fs2 : FS) (fea1 out1 fea2 out2 : String)
    (h1 : fs1.pathExists fea1 = false) (h2 : fs2.pathExists fea2 = false) :
    convert_kerning_fea_to_plist fs1 fea1 out1 = ([], [LogMsg.inputNotFound]) ∧
    extract_and_write_kerning_groups fs2 fea2 out2 = ([], [LogMsg.inputNotFound]) := by
  constructor
  · simp [convert_kerning_fea_to_plist, h1]
  · simp [extract_and_write_kerning_groups, h2]

/-- Claim C7 witness: with a file system where no path exists, both
converters perform no write and report file-not-found. -/
theorem c7_witness :
    (FS.mk (fun _ => false) (fun _ => none) (fun _ => none)
      (fun _ => [])).pathExists "missing.fea" = false ∧
    convert_kerning_fea_to_plist
      (FS.mk (fun _ => false) (fun _ => none) (fun _ => none) (fun _ => []))
      "missing.fea" "kerning.plist" = ([], [LogMsg.inputNotFound]) ∧
    extract_and_write_kerning_groups
      (FS.mk (fun _ => false) (fun _ => none) (fun _ => none) (fun _ => []))
      "missing.fea" "groups.plist" = ([], [LogMsg.inputNotFound]) := by
  have h := c7_missing_input_no_write
    (FS.mk (fun _ => false) (fun _ => none) (fun _ => none) (fun _ => []))
    (FS.mk (fun _ => false) (fun _ => none) (fun _ => none) (fun _ => []))
    "missing.fea" "kerning.plist" "missing.fea" "groups.plist" rfl rfl
  exact ⟨rfl, h.1, h.2⟩

/-- Claim C8: when the input parses but kerning extraction yields no
pairs, the converter still writes the empty table to the output path
and logs the no-kerning-data warning. -/
theorem c8_empty_table_still_written (fs : FS) (fea out : String)
    (stmts : List TopStatement)
    (hex : fs.pathExists fea = true)
    (hparse : fs.parseFile fea = some stmts)
    (hempty : (extractKerning (collectClasses stmts).1 stmts).1 = []) :
    (convert_kerning_fea_to_plist fs fea out).1 = [(out, [])] ∧
    LogMsg.noKerningData ∈ (convert_kerning_fea_to_plist fs fea out).2 := by
  constructor
  · simp [convert_kerning_fea_to_plist, hex, hparse, hempty]
  · simp [convert_kerning_fea_to_plist, hex, hparse, hempty]

/-- Claim C8 witness: an existing file parsing to no statements still
produces a write of the empty table plus the warning. -/
theorem c8_witness :
    (convert_kerning_fea_to_plist
      (FS.mk (fun _ => true) (fun _ => some []) (fun _ => none) (fun _ => []))
      "features.fea" "kerning.plist").1 = [("kerning.plist", [])] ∧
    LogMsg.noKerningData ∈ (convert_kerning_fea_to_plist
      (FS.mk (fun _ => true) (fun _ => some []) (fun _ => none) (fun _ => []))
      "features.fea" "kerning.plist").2 :=
  c8_empty_table_still_written
    (FS.mk (fun _ => true) (fun _ => some []) (fun _ => none) (fun _ => []))
    "features.fea" "kerning.plist" [] rfl rfl rfl

/-- Every group produced by the regex fallback has at least one
member: empty class bodies are dropped before insertion. -/
theorem parse_groups_regex_nonempty (found : List (String × String)) :
    ∀ p ∈ parse_groups_with_regex found, p.2 ≠ [] := by
  rw [parse_groups_with_regex]
  refine foldl_preserve
    (fun (acc : List (String × List String)) => ∀ p ∈ acc, p.2 ≠ []) _
    ?_ found [] (by simp)
  intro a m ha
  dsimp only
  by_cases hgl : ((pySplit m.2).map pyStrip).filter (fun g => g ≠ "") = []
  · rw [if_pos hgl]
    exact ha
  · rw [if_neg hgl]
    intro p hp
    rcases mem_dset hp with hm | hm
    · rw [hm]
      exact hgl
    · exact ha p hm

/-- Claim C10: when group extraction (structured or regex fallback)
yields no groups on an existing input, the groups converter writes no
output file at all, and the regex fallback only ever emits classes
with at least one member. -/
theorem c10_groups_empty_no_write (fs : FS) (fea out : String)
    (found : List (String × String)) :
    (groupsExtractedData fs fea = [] →
     (extract_and_write_kerning_groups fs fea out).1 = []) ∧
    (∀ p ∈ parse_groups_with_regex found, p.2 ≠ []) := by
  constructor
  · intro h
    rw [extract_and_write_kerning_groups]
    by_cases hex : fs.pathExists fea = false
    · simp [hex]
    · simp [hex, h]
  · exact parse_groups_regex_nonempty found

/-- Claim C10 witness: an existing file with no class definitions and
no regex matches produces no write; a regex scan with one nonempty and
one whitespace-only class body emits only the nonempty group. -/
theorem c10_witness :
    groupsExtractedData
      (FS.mk (fun _ => true) (fun _ => none) (fun _ => none) (fun _ => []))
      "features.fea" = [] ∧
    (extract_and_write_kerning_groups
      (FS.mk (fun _ => true) (fun _ => none) (fun _ => none) (fun _ => []))
      "features.fea" "groups.plist").1 = [] ∧
    ("public.kern1.a", ["x"]) ∈ parse_groups_with_regex [("a", "x"), ("b", " ")] ∧
    (("public.kern1.a", ["x"]) : String × List String).2 ≠ [] := by
  refine ⟨rfl, ?_, by decide, ?_⟩
  · exact (c10_groups_empty_no_write
      (FS.mk (fun _ => true) (fun _ => none) (fun _ => none) (fun _ => []))
      "features.fea" "groups.plist" [("a", "x"), ("b", " ")]).1 rfl
  · exact (c10_groups_empty_no_write
      (FS.mk (fun _ => true) (fun _ => none) (fun _ => none) (fun _ => []))
      "features.fea" "groups.plist" [("a", "x"), ("b", " ")]).2
      ("public.kern1.a", ["x"]) (by decide)
